import Mathlib

/-!
# Actuators of the os-coreos-alibaba and provider-alicloud controllers

A shallow embedding of

* `controllers/os-coreos-alibaba/pkg/coreos-alibaba/actuator.go` (package `coreos`), and
* `controllers/provider-alicloud/pkg/controller/infrastructure/actuator.go`
  (package `infrastructure`),

followed by theorems about the embedded functions.

Conventions of the embedding.

* A Go `string` is a Lean `String`; a Go `[]byte` is a `Bytes`, where `none` is the nil
  slice; a Go `map[string][]byte` is a `DataMap`, where `none` is the nil map.
* A Go pointer field is an `Option`; the pointer receiver arguments (`config`, `secret`,
  `infra`) are passed by value and the mutated value is returned.
* A Go function returning `error` (or `(T, error)`) returns an `Outcome`: a normal return
  without error, a normal return with an error, or a run-time panic.
* Every call that leaves the source file (cluster client, logger, helper packages) is made
  through a record of collaborators working on an abstract cluster state, and is appended to
  a call log, so that statements about which calls are made can be read off the log.
-/

set_option autoImplicit false

/-! ## Go values -/

/-- A Go byte slice; `none` is the nil slice. -/
abbrev Bytes := Option (List UInt8)

/-- The Go conversion of a string to a byte slice: the UTF-8 bytes of the string. -/
def bytesOf (s : String) : Bytes := some s.toUTF8.data.toList

/-- A Go map from strings to byte slices; `none` is the nil map, and a key the function sends
to `none` is absent from the map. -/
abbrev DataMap := Option (String → Option Bytes)

/-- The entry of a map at key `k`: `none` when `k` is absent or the map is nil, and the value
stored at `k` otherwise (the Go two-value index expression). -/
def DataMap.entry (m : DataMap) (k : String) : Option Bytes :=
  match m with
  | none => none
  | some f => f k

/-- The Go index expression on a map: the value at `k`, or the zero value (the nil slice)
when `k` is absent or the map is nil. -/
def DataMap.index (m : DataMap) (k : String) : Bytes :=
  match m with
  | none => none
  | some f => (f k).join

/-- The Go assignment to a key of a non-nil map. -/
def DataMap.set (f : String → Option Bytes) (k : String) (v : Bytes) :
    String → Option Bytes :=
  fun k' => if k' = k then some v else f k'

/-- Go error values: a not-found error of the cluster API, any other error given by its
message, and an error that wraps another one with some context. -/
inductive Error where
  | notFound (ns : String) (name : String)
  | other (msg : String)
  | wrap (context : String) (cause : Error)
  deriving DecidableEq, Repr

/-- The text of an error, as printed by the `%v` verb. -/
def Error.text : Error → String
  | .notFound ns name => "secrets \"" ++ name ++ "\" not found in namespace \"" ++ ns ++ "\""
  | .other msg => msg
  | .wrap context cause => context ++ ": " ++ cause.text

/-- Whether an error is a not-found error. -/
def Error.IsNotFound : Error → Bool
  | .notFound _ _ => true
  | _ => false

/-- The result of running an embedded Go function: a return without error, a return with an
error, or a run-time panic (nil pointer dereference). -/
inductive Outcome (α : Type) where
  | ok (a : α)
  | err (e : Error)
  | panic
  deriving DecidableEq, Repr

/-- The outcome of a function whose only result is an `error`. -/
def Outcome.ofError : Option Error → Outcome Unit
  | none => .ok ()
  | some e => .err e

/-! ## Kubernetes and Gardener API types (the fields the actuators read or write) -/

namespace metav1

/-- An owner reference of `k8s.io/apimachinery`. -/
structure OwnerReference where
  Kind : String
  Name : String
  Controller : Bool
  deriving DecidableEq, Repr

/-- Object metadata of `k8s.io/apimachinery`. -/
structure ObjectMeta where
  Name : String
  Namespace : String
  OwnerReferences : List OwnerReference := []
  deriving DecidableEq, Repr

end metav1

namespace client

/-- An object key of controller-runtime. -/
structure ObjectKey where
  Namespace : String
  Name : String
  deriving DecidableEq, Repr

end client

namespace corev1

/-- A secret reference of `k8s.io/api/core/v1`. -/
structure SecretReference where
  Name : String
  Namespace : String
  deriving DecidableEq, Repr

/-- A secret of `k8s.io/api/core/v1`. -/
structure Secret where
  ObjectMeta : metav1.ObjectMeta
  Data : DataMap := none

/-- The promoted field `Name` of the embedded object metadata. -/
def Secret.Name (s : Secret) : String := s.ObjectMeta.Name

/-- The promoted field `Namespace` of the embedded object metadata. -/
def Secret.Namespace (s : Secret) : String := s.ObjectMeta.Namespace

end corev1

namespace extensionsv1alpha1

/-- The type of a last operation. -/
inductive LastOperationType where
  | Create
  | Reconcile
  | Delete
  deriving DecidableEq, Repr

/-- The state of a last operation. -/
inductive LastOperationState where
  | Processing
  | Succeeded
  | Error
  | Failed
  | Pending
  | Aborted
  deriving DecidableEq, Repr

/-- The last-operation record of a status (its time stamp is not modelled). -/
structure LastOperation where
  OpType : LastOperationType
  State : LastOperationState
  Description : String
  Progress : Int
  deriving DecidableEq, Repr

/-- The last-error record of a status. -/
structure LastError where
  Description : String
  Codes : List String := []
  deriving DecidableEq, Repr

/-- The reference of a file content to a key of a secret. -/
structure FileContentSecretRef where
  Name : String
  DataKey : String
  deriving DecidableEq, Repr

/-- The inline form of a file content. -/
structure FileContentInline where
  Encoding : String
  Data : String
  deriving DecidableEq, Repr

/-- The content of a file: two optional pointers. -/
structure FileContent where
  SecretRef : Option FileContentSecretRef := none
  Inline : Option FileContentInline := none
  deriving DecidableEq, Repr

/-- A file of an operating system config. -/
structure File where
  Path : String
  Permissions : Option Int := none
  Content : FileContent
  deriving DecidableEq, Repr

/-- A drop-in of a unit. -/
structure DropIn where
  Name : String
  Content : String
  deriving DecidableEq, Repr

/-- A unit of an operating system config. -/
structure Unit where
  Name : String
  Content : Option String := none
  DropIns : List DropIn := []
  deriving DecidableEq, Repr

/-- The spec of an operating system config. -/
structure OperatingSystemConfigSpec where
  Files : List File := []
  Units : List Unit := []
  deriving DecidableEq, Repr

/-- The reference of a status to the generated cloud config. -/
structure CloudConfig where
  SecretRef : corev1.SecretReference
  deriving DecidableEq, Repr

/-- The status of an operating system config. -/
structure OperatingSystemConfigStatus where
  ObservedGeneration : Int := 0
  LastOperation : Option LastOperation := none
  LastError : Option LastError := none
  CloudConfig : Option CloudConfig := none
  deriving DecidableEq, Repr

/-- An operating system config resource. -/
structure OperatingSystemConfig where
  Name : String
  Namespace : String
  Generation : Int := 0
  Spec : OperatingSystemConfigSpec := {}
  Status : OperatingSystemConfigStatus := {}
  deriving DecidableEq, Repr

/-- The well-known key of the secret data under which the generated cloud config is stored
(a constant of the Gardener API; no statement below depends on its value). -/
def OperatingSystemConfigSecretDataKey : String := "cloud_config"

end extensionsv1alpha1

/-! ## The intermediate model of package `internal`

The type declarations of package `internal` are not among the source files. The structures
below follow the data model of the spec and carry the field names with which lines 168-185
of `actuator.go` build them. -/

namespace internal

/-- Modelled from the spec: a file of the intermediate provisioning model, with its path, its
content bytes and its permission bits. -/
structure File where
  Path : String
  Content : Bytes
  Permissions : Option Int
  deriving DecidableEq, Repr

/-- Modelled from the spec: a drop-in of the intermediate provisioning model, with its name
and its content bytes. -/
structure DropIn where
  Name : String
  Content : Bytes
  deriving DecidableEq, Repr

/-- Modelled from the spec: a unit of the intermediate provisioning model, with its name, its
content bytes (nil when unset) and its ordered drop-ins. -/
structure Unit where
  Name : String
  Content : Bytes
  DropIns : List DropIn
  deriving DecidableEq, Repr

/-- Modelled from the spec: the intermediate provisioning model handed to the generator, a
list of files and a list of units. -/
structure OperatingSystemConfig where
  Files : List File
  Units : List Unit
  deriving DecidableEq, Repr

end internal

/-! ## Status helpers of package `controller` -/

namespace controller

open extensionsv1alpha1

/-- Modelled from the spec: `controller.ReconcileError` (package `pkg/controller`, not among
the source files) builds the status of a failed operation: a last-operation record of the
given type in the error state with the given description and progress code, and a populated
last-error record with the same description. -/
def ReconcileError (t : LastOperationType) (description : String) (progress : Int) :
    Option LastOperation × Option LastError :=
  (some { OpType := t, State := .Error, Description := description, Progress := progress },
   some { Description := description })

/-- Modelled from the spec: `controller.ReconcileSucceeded` (package `pkg/controller`, not
among the source files) builds the status of a successful operation: a last-operation record
of the given type in the succeeded state with the given description, at full progress, and a
cleared last-error record. -/
def ReconcileSucceeded (t : LastOperationType) (description : String) :
    Option LastOperation × Option LastError :=
  (some { OpType := t, State := .Succeeded, Description := description, Progress := 100 },
   none)

end controller

/-! ## Package `coreos`: the operating system config actuator -/

namespace coreos

/-- A call made by the actuator to one of its collaborators, with its arguments. -/
inductive Call where
  | Get (key : client.ObjectKey)
  | StatusUpdate (config : extensionsv1alpha1.OperatingSystemConfig)
  | CreateOrUpdate (obj : metav1.ObjectMeta)
  | Decode (encoding : String) (data : Bytes)
  | Generate (unitsPath : String) (config : internal.OperatingSystemConfig)
  | LoggerError (err : Error) (msg : String) (osc : String)
  deriving DecidableEq, Repr

/-- Whether a call is a call of the artifact store upsert. -/
def Call.isCreateOrUpdate : Call → Bool
  | .CreateOrUpdate _ => true
  | _ => false

/-- Whether a call is a call of the cloud-init generator. -/
def Call.isGenerate : Call → Bool
  | .Generate _ _ => true
  | _ => false

/-- The collaborators of the actuator, over a cluster state of type `σ`.

* `Get` is `a.client.Get` for a secret, and `StatusUpdate` is `a.client.Status().Update` for
  an operating system config (controller-runtime). The object that the server sends back is
  not modelled: `StatusUpdate` only reports an error or none.
* `CreateOrUpdate` is `controller.CreateOrUpdate` (package `pkg/controller`, not among the
  source files), taken as a parameter: it receives the object and the mutation, and gives
  back the object as it stands in memory after the call together with the error.
* `SetControllerReference` is `controllerutil.SetControllerReference` with the scheme of
  the actuator (controller-runtime): it fails, or yields the new owner references of the
  controlled object.
* `Decode` is `cloudinit.Decode` (package `internal/cloudinit`, not among the source
  files), taken as a parameter.
* `DefaultUnitsPath` is `internal.DefaultUnitsPath` and `Generate p` is
  `internal.NewCloudInitGenerator(p).Generate` (package `internal`, not among the source
  files), taken as parameters. Following the spec, the generator is deterministic: the
  same model and units path always yield the same bytes, so it is a function of the two. -/
structure Collaborators (σ : Type) where
  Get : client.ObjectKey → σ → Except Error corev1.Secret × σ
  StatusUpdate : extensionsv1alpha1.OperatingSystemConfig → σ → Option Error × σ
  CreateOrUpdate : corev1.Secret → (corev1.Secret → corev1.Secret × Option Error) → σ →
    (corev1.Secret × Option Error) × σ
  SetControllerReference : extensionsv1alpha1.OperatingSystemConfig → corev1.Secret →
    Except Error (List metav1.OwnerReference)
  Decode : String → Bytes → Except Error Bytes
  DefaultUnitsPath : String
  Generate : String → internal.OperatingSystemConfig → Except Error Bytes

/-- The cluster state together with the log of the calls made so far, oldest first. -/
structure World (σ : Type) where
  st : σ
  log : List Call

variable {σ : Type}

/-- What a method of the actuator that returns an `error` leaves behind: the returned error,
the config as mutated in memory through the pointer, and the world after the call. -/
structure Return (σ : Type) where
  err : Outcome Unit
  config : extensionsv1alpha1.OperatingSystemConfig
  world : World σ

/-- The call `a.client.Get(ctx, key, secret)`. -/
def callGet (env : Collaborators σ) (key : client.ObjectKey) (w : World σ) :
    Except Error corev1.Secret × World σ :=
  ((env.Get key w.st).1, { st := (env.Get key w.st).2, log := w.log ++ [Call.Get key] })

/-- The call `a.client.Status().Update(ctx, config)`. -/
def callStatusUpdate (env : Collaborators σ)
    (config : extensionsv1alpha1.OperatingSystemConfig) (w : World σ) :
    Option Error × World σ :=
  ((env.StatusUpdate config w.st).1,
   { st := (env.StatusUpdate config w.st).2, log := w.log ++ [Call.StatusUpdate config] })

/-- The call `controller.CreateOrUpdate(ctx, a.client, secret, mutate)`. -/
def callCreateOrUpdate (env : Collaborators σ) (secret : corev1.Secret)
    (mutate : corev1.Secret → corev1.Secret × Option Error) (w : World σ) :
    (corev1.Secret × Option Error) × World σ :=
  ((env.CreateOrUpdate secret mutate w.st).1,
   { st := (env.CreateOrUpdate secret mutate w.st).2,
     log := w.log ++ [Call.CreateOrUpdate secret.ObjectMeta] })

/-- The call `cloudinit.Decode(encoding, data)`. -/
def callDecode (env : Collaborators σ) (encoding : String) (data : Bytes) (w : World σ) :
    Except Error Bytes × World σ :=
  (env.Decode encoding data, { w with log := w.log ++ [Call.Decode encoding data] })

/-- The call `internal.NewCloudInitGenerator(internal.DefaultUnitsPath).Generate(config)`. -/
def callGenerate (env : Collaborators σ) (config : internal.OperatingSystemConfig)
    (w : World σ) : Except Error Bytes × World σ :=
  (env.Generate env.DefaultUnitsPath config,
   { w with log := w.log ++ [Call.Generate env.DefaultUnitsPath config] })

/-- The call `a.logger.Error(err, msg, "osc", name)`. -/
def callLoggerError (err : Error) (msg : String) (osc : String) (w : World σ) : World σ :=
  { w with log := w.log ++ [Call.LoggerError err msg osc] }

/-- The method `Exists` (lines 59-61). -/
def Exists (config : extensionsv1alpha1.OperatingSystemConfig) : Outcome Bool :=
  .ok config.Status.CloudConfig.isSome

/-- The function `secretObjectMetaForConfig` (lines 127-142). -/
def secretObjectMetaForConfig (config : extensionsv1alpha1.OperatingSystemConfig) :
    metav1.ObjectMeta :=
  let name := "osc-result-" ++ config.Name
  let namespace1 := config.Namespace
  match config.Status.CloudConfig with
  | some cloudConfig =>
    { Name := cloudConfig.SecretRef.Name, Namespace := cloudConfig.SecretRef.Namespace }
  | none => { Name := name, Namespace := namespace1 }

/-- The method `dataForFileContent` (lines 144-158). With neither an inline content nor a
secret reference, line 152 dereferences a nil pointer. -/
def dataForFileContent (env : Collaborators σ) (ns : String)
    (content : extensionsv1alpha1.FileContent) (w : World σ) : Outcome Bytes × World σ :=
  match content.Inline with
  | some inline =>
    if inline.Encoding.utf8ByteSize = 0 then
      (.ok (bytesOf inline.Data), w)
    else
      match callDecode env inline.Encoding (bytesOf inline.Data) w with
      | (.ok data, w1) => (.ok data, w1)
      | (.error err, w1) => (.err err, w1)
  | none =>
    match content.SecretRef with
    | none => (.panic, w)
    | some secretRef =>
      let key : client.ObjectKey := { Namespace := ns, Name := secretRef.Name }
      match callGet env key w with
      | (.error err, w1) => (.err err, w1)
      | (.ok secret, w1) => (.ok (secret.Data.index secretRef.DataKey), w1)

/-- The first loop of `cloudConfigFromOperatingSystemConfig` (lines 161-169): the files
appended so far are `files`, the spec files still to visit are the list argument. -/
def resolveFiles (env : Collaborators σ) (ns : String) :
    List extensionsv1alpha1.File → List internal.File → World σ →
    Outcome (List internal.File) × World σ
  | [], files, w => (.ok files, w)
  | file :: rest, files, w =>
    match dataForFileContent env ns file.Content w with
    | (.ok data, w1) =>
      resolveFiles env ns rest
        (files ++ [{ Path := file.Path, Content := data, Permissions := file.Permissions }]) w1
    | (.err err, w1) => (.err err, w1)
    | (.panic, w1) => (.panic, w1)

/-- The inner loop over the drop-ins of a unit (lines 178-181). -/
def convertDropIns : List extensionsv1alpha1.DropIn → List internal.DropIn → List internal.DropIn
  | [], dropIns => dropIns
  | dropIn :: rest, dropIns =>
    convertDropIns rest (dropIns ++ [{ Name := dropIn.Name, Content := bytesOf dropIn.Content }])

/-- The second loop of `cloudConfigFromOperatingSystemConfig` (lines 171-183). -/
def convertUnits : List extensionsv1alpha1.Unit → List internal.Unit → List internal.Unit
  | [], units => units
  | unit :: rest, units =>
    let content : Bytes :=
      match unit.Content with
      | some s => bytesOf s
      | none => none
    let dropIns := convertDropIns unit.DropIns []
    convertUnits rest (units ++ [{ Name := unit.Name, Content := content, DropIns := dropIns }])

/-- The method `cloudConfigFromOperatingSystemConfig` (lines 160-186). -/
def cloudConfigFromOperatingSystemConfig (env : Collaborators σ)
    (config : extensionsv1alpha1.OperatingSystemConfig) (w : World σ) :
    Outcome Bytes × World σ :=
  match resolveFiles env config.Namespace config.Spec.Files [] w with
  | (.err err, w1) => (.err err, w1)
  | (.panic, w1) => (.panic, w1)
  | (.ok files, w1) =>
    let units := convertUnits config.Spec.Units []
    match callGenerate env { Files := files, Units := units } w1 with
    | (.ok data, w2) => (.ok data, w2)
    | (.error err, w2) => (.err err, w2)

/-- The mutation that `reconcile` hands to `controller.CreateOrUpdate` (lines 90-97): the
secret after the mutation, and the error of the mutation. -/
def mutateSecret (env : Collaborators σ) (config : extensionsv1alpha1.OperatingSystemConfig)
    (cloudConfig : Bytes) (secret : corev1.Secret) : corev1.Secret × Option Error :=
  let data : String → Option Bytes :=
    match secret.Data with
    | none => fun _ => none
    | some m => m
  let secret1 : corev1.Secret :=
    { secret with
      Data := some (DataMap.set data extensionsv1alpha1.OperatingSystemConfigSecretDataKey
        cloudConfig) }
  match env.SetControllerReference config secret1 with
  | .error err => (secret1, some err)
  | .ok refs =>
    ({ secret1 with ObjectMeta := { secret1.ObjectMeta with OwnerReferences := refs } }, none)

/-- The status assignments of a failed reconcile (lines 78-79 and 98-99). -/
def errorStatus (config : extensionsv1alpha1.OperatingSystemConfig) (description : String) :
    extensionsv1alpha1.OperatingSystemConfig :=
  { config with
    Status :=
      { config.Status with
        ObservedGeneration := config.Generation
        LastOperation := (controller.ReconcileError .Reconcile description 50).1
        LastError := (controller.ReconcileError .Reconcile description 50).2 } }

/-- The method `reconcile` (lines 75-115). -/
def reconcile (env : Collaborators σ) (config : extensionsv1alpha1.OperatingSystemConfig)
    (w : World σ) : Return σ :=
  match cloudConfigFromOperatingSystemConfig env config w with
  | (.panic, w1) => { err := .panic, config := config, world := w1 }
  | (.err err, w1) =>
    let config1 := errorStatus config ("Could not generate cloud config: " ++ err.text)
    match callStatusUpdate env config1 w1 with
    | (some err1, w2) =>
      { err := .err err, config := config1,
        world := callLoggerError err1
          "Could not update operating system config status after update error" config1.Name w2 }
    | (none, w2) => { err := .err err, config := config1, world := w2 }
  | (.ok cloudConfig, w1) =>
    let secret : corev1.Secret := { ObjectMeta := secretObjectMetaForConfig config }
    match callCreateOrUpdate env secret (mutateSecret env config cloudConfig) w1 with
    | ((_, some err), w2) =>
      let config1 :=
        errorStatus config ("Could not apply secret for generated cloud config: " ++ err.text)
      match callStatusUpdate env config1 w2 with
      | (some err1, w3) =>
        { err := .err err, config := config1,
          world := callLoggerError err1
            "Could not update operating system config status after reconcile error"
            config1.Name w3 }
      | (none, w3) => { err := .err err, config := config1, world := w3 }
    | ((secret1, none), w2) =>
      let config1 : extensionsv1alpha1.OperatingSystemConfig :=
        { config with
          Status :=
            { config.Status with
              CloudConfig :=
                some { SecretRef := { Name := secret1.Name, Namespace := secret1.Namespace } }
              ObservedGeneration := config.Generation
              LastOperation :=
                (controller.ReconcileSucceeded .Reconcile "Successfully generated cloud config").1
              LastError :=
                (controller.ReconcileSucceeded .Reconcile "Successfully generated cloud config").2 } }
      match callStatusUpdate env config1 w2 with
      | (r, w3) => { err := Outcome.ofError r, config := config1, world := w3 }

/-- The method `delete` (lines 117-125). -/
def delete (env : Collaborators σ) (config : extensionsv1alpha1.OperatingSystemConfig)
    (w : World σ) : Return σ :=
  let config1 : extensionsv1alpha1.OperatingSystemConfig :=
    { config with
      Status :=
        { config.Status with
          ObservedGeneration := config.Generation
          LastOperation :=
            (controller.ReconcileSucceeded .Delete "Successfully deleted cloud config").1
          LastError :=
            (controller.ReconcileSucceeded .Delete "Successfully deleted cloud config").2 } }
  match callStatusUpdate env config1 w with
  | (some err, w1) =>
    { err := .err err, config := config1,
      world := callLoggerError err
        "Could not update operating system config status for deletion" config1.Name w1 }
  | (none, w1) => { err := .ok (), config := config1, world := w1 }

/-- The method `Create` (lines 63-65). -/
def Create (env : Collaborators σ) (config : extensionsv1alpha1.OperatingSystemConfig)
    (w : World σ) : Return σ :=
  reconcile env config w

/-- The method `Update` (lines 67-69). -/
def Update (env : Collaborators σ) (config : extensionsv1alpha1.OperatingSystemConfig)
    (w : World σ) : Return σ :=
  reconcile env config w

/-- The method `Delete` (lines 71-73). -/
def Delete (env : Collaborators σ) (config : extensionsv1alpha1.OperatingSystemConfig)
    (w : World σ) : Return σ :=
  delete env config w

/-! ### Concrete clusters and resources, used to run the functions above -/

/-- The secret with the given key among a list of secrets. -/
def lookupSecret (key : client.ObjectKey) (st : List corev1.Secret) : Option corev1.Secret :=
  st.find? (fun s => s.Name == key.Name && s.Namespace == key.Namespace)

/-- An upsert on a list of secrets: fetch the secret with the name and namespace of the given
object, or start from the given object when there is none; apply the mutation; when the
mutation succeeds, store the result in the place of the fetched secret. -/
def memoryCreateOrUpdate (obj : corev1.Secret)
    (mutate : corev1.Secret → corev1.Secret × Option Error) (st : List corev1.Secret) :
    (corev1.Secret × Option Error) × List corev1.Secret :=
  let current := (lookupSecret { Namespace := obj.Namespace, Name := obj.Name } st).getD obj
  match mutate current with
  | (s, some err) => ((s, some err), st)
  | (s, none) =>
    ((s, none), s :: st.filter (fun x => !(x.Name == obj.Name && x.Namespace == obj.Namespace)))

/-- A cluster whose state is the list of its secrets and in which every write succeeds: `Get`
reports a not-found error for a secret that is not in the list; `CreateOrUpdate` is
`memoryCreateOrUpdate`; the only encoding known to `Decode` is the identity encoding named
"plain"; the generator writes the contents of the files one after the other. -/
def memoryCluster : Collaborators (List corev1.Secret) where
  Get key st :=
    match lookupSecret key st with
    | some s => (.ok s, st)
    | none => (.error (.notFound key.Namespace key.Name), st)
  StatusUpdate _ st := (none, st)
  CreateOrUpdate := memoryCreateOrUpdate
  SetControllerReference config _ :=
    .ok [{ Kind := "OperatingSystemConfig", Name := config.Name, Controller := true }]
  Decode encoding data :=
    if encoding = "plain" then .ok data else .error (.other ("unknown encoding " ++ encoding))
  DefaultUnitsPath := "/etc/systemd/system"
  Generate _ model := .ok (some (model.Files.flatMap (fun f => f.Content.getD [])))

/-- The cluster `memoryCluster`, except that every status update fails. -/
def statusFailingCluster : Collaborators (List corev1.Secret) :=
  { memoryCluster with StatusUpdate := fun _ st => (some (.other "conflict"), st) }

/-- The cluster `memoryCluster`, except that every upsert fails without writing. -/
def upsertFailingCluster : Collaborators (List corev1.Secret) :=
  { memoryCluster with
    CreateOrUpdate := fun obj _ st => ((obj, some (.other "forbidden")), st)
    StatusUpdate := fun _ st => (some (.other "conflict"), st) }

/-- A secret with the single key "token". -/
def bootstrapSecret : corev1.Secret :=
  { ObjectMeta := { Name := "bootstrap", Namespace := "shoot" }
    Data := some (fun k => if k = "token" then some (bytesOf "abc") else none) }

/-- A world whose cluster holds `bootstrapSecret` only and in which no call was made yet. -/
def bootstrapWorld : World (List corev1.Secret) :=
  { st := [bootstrapSecret], log := [] }

/-- A file content that refers to a key which `bootstrapSecret` does not have. -/
def missingKeyContent : extensionsv1alpha1.FileContent :=
  { SecretRef := some { Name := "bootstrap", DataKey := "absent" } }

/-- A file content that refers to a secret which the cluster does not have. -/
def missingSecretContent : extensionsv1alpha1.FileContent :=
  { SecretRef := some { Name := "nowhere", DataKey := "token" } }

/-- A resource with two files of the same path and two units of the same name, all of whose
file contents resolve in `bootstrapWorld`. -/
def workerConfig : extensionsv1alpha1.OperatingSystemConfig :=
  { Name := "worker", Namespace := "shoot", Generation := 3
    Spec :=
      { Files :=
          [{ Path := "/etc/x", Permissions := some 420
             Content := { Inline := some { Encoding := "", Data := "hello" } } },
           { Path := "/etc/x", Permissions := some 384
             Content := { SecretRef := some { Name := "bootstrap", DataKey := "token" } } }]
        Units :=
          [{ Name := "x.service", Content := some "[Unit]"
             DropIns := [{ Name := "10-x.conf", Content := "Env=1" },
                         { Name := "10-x.conf", Content := "Env=2" }] },
           { Name := "x.service" }] } }

/-- A resource whose second file refers to a secret which the cluster does not have, and
whose status already refers to an artifact. -/
def brokenConfig : extensionsv1alpha1.OperatingSystemConfig :=
  { Name := "broken", Namespace := "shoot", Generation := 7
    Spec :=
      { Files :=
          [{ Path := "/etc/a", Content := { Inline := some { Encoding := "", Data := "a" } } },
           { Path := "/etc/b", Content := missingSecretContent },
           { Path := "/etc/c", Content := missingKeyContent }] }
    Status :=
      { ObservedGeneration := 6
        CloudConfig := some { SecretRef := { Name := "osc-result-old", Namespace := "shoot" } } } }

end coreos

/-! ## Package `infrastructure`: the infrastructure actuator

The Terraformer handle, the provider infrastructure config and the provider infrastructure
status are values of types `T`, `C` and `S`: their declarations belong to other packages and
the actuator only passes them on. -/

namespace infrastructure

/-- A raw extension of `k8s.io/apimachinery`: raw bytes or an object. -/
structure RawExtension (S : Type) where
  Raw : Bytes := none
  Object : Option S := none
  deriving DecidableEq, Repr

/-- The status of an infrastructure resource. -/
structure InfrastructureStatus (S : Type) where
  ObservedGeneration : Int := 0
  ProviderStatus : Option (RawExtension S) := none
  deriving DecidableEq, Repr

/-- An infrastructure resource, with its provider config of type `P`. -/
structure Infrastructure (P S : Type) where
  Name : String
  Namespace : String
  Generation : Int := 0
  ProviderConfig : Option P := none
  Status : InfrastructureStatus S := {}
  deriving DecidableEq, Repr

/-- A call made by the actuator to one of its collaborators, with its arguments. -/
inductive Call (T C P S : Type) where
  | ComputeStatus (tf : T) (config : C)
  | Update (infra : Infrastructure P S)
  deriving DecidableEq, Repr

/-- The collaborators of the actuator, over a cluster state of type `σ`.

* `ComputeStatus` is `infrainternal.ComputeStatus` (package
  `provider-gcp/pkg/internal/infrastructure`, not among the source files), taken as a
  parameter.
* `Update` is `a.client.Update` for an infrastructure resource (controller-runtime). The
  object that the server sends back is not modelled: `Update` only reports an error or
  none. -/
structure Collaborators (σ T C P S : Type) where
  ComputeStatus : T → C → σ → Except Error S × σ
  Update : Infrastructure P S → σ → Option Error × σ

/-- The cluster state together with the log of the calls made so far, oldest first. -/
structure World (σ T C P S : Type) where
  st : σ
  log : List (Call T C P S)

variable {σ T C P S : Type}

/-- The call `infrainternal.ComputeStatus(tf, config)`. -/
def callComputeStatus (env : Collaborators σ T C P S) (tf : T) (config : C)
    (w : World σ T C P S) : Except Error S × World σ T C P S :=
  ((env.ComputeStatus tf config w.st).1,
   { st := (env.ComputeStatus tf config w.st).2, log := w.log ++ [Call.ComputeStatus tf config] })

/-- The call `a.client.Update(ctx, infra)`. -/
def callUpdate (env : Collaborators σ T C P S) (infra : Infrastructure P S)
    (w : World σ T C P S) : Option Error × World σ T C P S :=
  ((env.Update infra w.st).1,
   { st := (env.Update infra w.st).2, log := w.log ++ [Call.Update infra] })

/-- What `updateProviderStatus` leaves behind: the returned error (`none` is nil), the
resource as mutated in memory through the pointer, and the world after the call. -/
structure Return (σ T C P S : Type) where
  err : Option Error
  infra : Infrastructure P S
  world : World σ T C P S

/-- The method `updateProviderStatus` (lines 66-79). -/
def updateProviderStatus (env : Collaborators σ T C P S) (tf : T) (infra : Infrastructure P S)
    (config : C) (w : World σ T C P S) : Return σ T C P S :=
  match callComputeStatus env tf config w with
  | (.error err, w1) => { err := some err, infra := infra, world := w1 }
  | (.ok status, w1) =>
    let infra1 : Infrastructure P S :=
      { infra with Status := { infra.Status with ProviderStatus := some { Object := some status } } }
    match callUpdate env infra1 w1 with
    | (r, w2) => { err := r, infra := infra1, world := w2 }

/-! ### A concrete cluster, used to run the function above -/

/-- A cluster without state in which the handle, the configs and the provider status are
strings: the status computation fails for the config "invalid" and every update is
rejected. -/
def rejectingCluster : Collaborators Unit String String String String where
  ComputeStatus tf config st :=
    if config = "invalid" then (.error (.other "no state"), st)
    else (.ok (tf ++ "/" ++ config), st)
  Update _ st := (some (.other "conflict"), st)

/-- An infrastructure resource whose provider status holds raw bytes. -/
def vpcInfra : Infrastructure String String :=
  { Name := "vpc", Namespace := "shoot", Generation := 2
    Status := { ProviderStatus := some { Raw := bytesOf "old" } } }

end infrastructure

/-! ## Auxiliary facts about the loops, the call log and the status -/

namespace coreos

variable {σ : Type}

theorem convertDropIns_eq (ds : List extensionsv1alpha1.DropIn) (acc : List internal.DropIn) :
    convertDropIns ds acc
      = acc ++ ds.map (fun d => { Name := d.Name, Content := bytesOf d.Content }) := by
  induction ds generalizing acc with
  | nil => simp [convertDropIns]
  | cons d rest ih => simp [convertDropIns, ih]

theorem convertUnits_eq (us : List extensionsv1alpha1.Unit) (acc : List internal.Unit) :
    convertUnits us acc
      = acc ++ us.map (fun u =>
          { Name := u.Name
            Content := (match u.Content with
              | some s => bytesOf s
              | none => none)
            DropIns := u.DropIns.map (fun d => { Name := d.Name, Content := bytesOf d.Content }) }) := by
  induction us generalizing acc with
  | nil => simp [convertUnits]
  | cons u rest ih => simp [convertUnits, ih, convertDropIns_eq]

theorem resolveFiles_acc (env : Collaborators σ) (ns : String)
    (fs : List extensionsv1alpha1.File) (acc : List internal.File) (w : World σ) :
    resolveFiles env ns fs acc w =
      match resolveFiles env ns fs [] w with
      | (.ok out, w1) => (.ok (acc ++ out), w1)
      | (.err e, w1) => (.err e, w1)
      | (.panic, w1) => (.panic, w1) := by
  induction fs generalizing acc w with
  | nil => simp [resolveFiles]
  | cons f rest ih =>
    simp only [resolveFiles]
    rcases hd : dataForFileContent env ns f.Content w with ⟨o, w1⟩
    cases o with
    | ok data =>
      simp only [List.nil_append]
      rw [ih (acc ++ [_]) w1, ih [_] w1]
      rcases hr : resolveFiles env ns rest [] w1 with ⟨o2, w2⟩
      cases o2 <;> simp
    | err e => simp
    | panic => simp

theorem resolveFiles_append (env : Collaborators σ) (ns : String)
    (pre post : List extensionsv1alpha1.File) (acc : List internal.File) (w : World σ) :
    resolveFiles env ns (pre ++ post) acc w =
      match resolveFiles env ns pre acc w with
      | (.ok out, w1) => resolveFiles env ns post out w1
      | (.err e, w1) => (.err e, w1)
      | (.panic, w1) => (.panic, w1) := by
  induction pre generalizing acc w with
  | nil => simp [resolveFiles]
  | cons f rest ih =>
    simp only [List.cons_append, resolveFiles]
    rcases hd : dataForFileContent env ns f.Content w with ⟨o, w1⟩
    cases o with
    | ok data => exact ih _ w1
    | err e => simp
    | panic => simp

theorem resolveFiles_world_acc (env : Collaborators σ) (ns : String)
    (fs : List extensionsv1alpha1.File) (acc : List internal.File) (w : World σ) :
    (resolveFiles env ns fs acc w).2 = (resolveFiles env ns fs [] w).2 := by
  rw [resolveFiles_acc]
  rcases hr : resolveFiles env ns fs [] w with ⟨o, w1⟩
  cases o <;> rfl

theorem resolveFiles_index (env : Collaborators σ) (ns : String)
    (fs : List extensionsv1alpha1.File) (w : World σ) (files : List internal.File)
    (w1 : World σ) (h : resolveFiles env ns fs [] w = (.ok files, w1)) :
    files.length = fs.length ∧
    ∀ (i : Nat) (file : extensionsv1alpha1.File), fs[i]? = some file →
      ∃ data,
        (dataForFileContent env ns file.Content (resolveFiles env ns (fs.take i) [] w).2).1
          = .ok data ∧
        files[i]? = some { Path := file.Path, Content := data, Permissions := file.Permissions } := by
  induction fs generalizing w files with
  | nil =>
    simp only [resolveFiles, Prod.mk.injEq, Outcome.ok.injEq] at h
    simp [← h.1]
  | cons f rest ih =>
    simp only [resolveFiles] at h
    rcases hd : dataForFileContent env ns f.Content w with ⟨o, w2⟩
    rw [hd] at h
    cases o with
    | err e => simp at h
    | panic => simp at h
    | ok data =>
      simp only [List.nil_append] at h
      rw [resolveFiles_acc] at h
      rcases hr : resolveFiles env ns rest [] w2 with ⟨o2, w3⟩
      rw [hr] at h
      cases o2 with
      | err e => simp at h
      | panic => simp at h
      | ok out =>
        simp only [Prod.mk.injEq, Outcome.ok.injEq] at h
        obtain ⟨hfiles, hw⟩ := h
        subst hfiles
        subst hw
        obtain ⟨hlen, hidx⟩ := ih w2 out hr
        refine ⟨by simp [hlen], ?_⟩
        intro i file hi
        cases i with
        | zero =>
          simp only [List.getElem?_cons_zero, Option.some.injEq] at hi
          subst hi
          exact ⟨data, by simp [resolveFiles, hd], by simp⟩
        | succ i =>
          simp only [List.getElem?_cons_succ] at hi
          obtain ⟨data1, h1, h2⟩ := hidx i file hi
          refine ⟨data1, ?_, by simpa using h2⟩
          simp only [List.take_succ_cons, resolveFiles, hd, List.nil_append]
          rw [resolveFiles_world_acc]
          exact h1

theorem dataForFileContent_log_filter (env : Collaborators σ) (ns : String)
    (content : extensionsv1alpha1.FileContent) (w : World σ) (p : Call → Bool)
    (hGet : ∀ key, p (Call.Get key) = false)
    (hDecode : ∀ encoding data, p (Call.Decode encoding data) = false) :
    (dataForFileContent env ns content w).2.log.filter p = w.log.filter p := by
  unfold dataForFileContent
  split
  · split
    · rfl
    · split <;> rename_i hc <;> simp [callDecode] at hc <;>
        simp [← hc.2, List.filter_append, hDecode]
  · split
    · rfl
    · dsimp only
      split <;> rename_i hc <;> simp [callGet] at hc <;>
        simp [← hc.2, List.filter_append, hGet]

theorem resolveFiles_log_filter (env : Collaborators σ) (ns : String)
    (fs : List extensionsv1alpha1.File) (acc : List internal.File) (w : World σ)
    (p : Call → Bool) (hGet : ∀ key, p (Call.Get key) = false)
    (hDecode : ∀ encoding data, p (Call.Decode encoding data) = false) :
    (resolveFiles env ns fs acc w).2.log.filter p = w.log.filter p := by
  induction fs generalizing acc w with
  | nil => simp [resolveFiles]
  | cons f rest ih =>
    have hd := dataForFileContent_log_filter env ns f.Content w p hGet hDecode
    simp only [resolveFiles]
    rcases hr : dataForFileContent env ns f.Content w with ⟨o, w1⟩
    rw [hr] at hd
    cases o with
    | ok data => simp only [ih]; exact hd
    | err e => exact hd
    | panic => exact hd

theorem cloudConfig_log_filter (env : Collaborators σ)
    (config : extensionsv1alpha1.OperatingSystemConfig) (w : World σ) :
    (cloudConfigFromOperatingSystemConfig env config w).2.log.filter Call.isCreateOrUpdate
      = w.log.filter Call.isCreateOrUpdate := by
  have hf := resolveFiles_log_filter env config.Namespace config.Spec.Files [] w
    Call.isCreateOrUpdate (fun _ => rfl) (fun _ _ => rfl)
  unfold cloudConfigFromOperatingSystemConfig
  rcases hr : resolveFiles env config.Namespace config.Spec.Files [] w with ⟨o, w1⟩
  rw [hr] at hf
  cases o with
  | ok files =>
    simp only [callGenerate]
    split <;> rename_i hc <;> simp at hc <;>
      simp [← hc.2, List.filter_append, Call.isCreateOrUpdate] <;> exact hf
  | err e => exact hf
  | panic => exact hf

theorem dataForFileContent_statusUpdate_irrelevant (env : Collaborators σ)
    (statusUpdate : extensionsv1alpha1.OperatingSystemConfig → σ → Option Error × σ)
    (ns : String) (content : extensionsv1alpha1.FileContent) (w : World σ) :
    dataForFileContent { env with StatusUpdate := statusUpdate } ns content w
      = dataForFileContent env ns content w := rfl

theorem resolveFiles_statusUpdate_irrelevant (env : Collaborators σ)
    (statusUpdate : extensionsv1alpha1.OperatingSystemConfig → σ → Option Error × σ)
    (ns : String) (fs : List extensionsv1alpha1.File) (acc : List internal.File)
    (w : World σ) :
    resolveFiles { env with StatusUpdate := statusUpdate } ns fs acc w
      = resolveFiles env ns fs acc w := by
  induction fs generalizing acc w with
  | nil => rfl
  | cons f rest ih =>
    simp only [resolveFiles, dataForFileContent_statusUpdate_irrelevant]
    rcases hd : dataForFileContent env ns f.Content w with ⟨o, w1⟩
    cases o with
    | ok data => exact ih _ w1
    | err e => rfl
    | panic => rfl

theorem cloudConfig_statusUpdate_irrelevant (env : Collaborators σ)
    (statusUpdate : extensionsv1alpha1.OperatingSystemConfig → σ → Option Error × σ)
    (config : extensionsv1alpha1.OperatingSystemConfig) (w : World σ) :
    cloudConfigFromOperatingSystemConfig { env with StatusUpdate := statusUpdate } config w
      = cloudConfigFromOperatingSystemConfig env config w := by
  unfold cloudConfigFromOperatingSystemConfig
  rw [resolveFiles_statusUpdate_irrelevant]
  rfl

theorem reconcile_upsert_calls (env : Collaborators σ)
    (config : extensionsv1alpha1.OperatingSystemConfig) (w : World σ) :
    (reconcile env config w).world.log.filter Call.isCreateOrUpdate
        = w.log.filter Call.isCreateOrUpdate ∨
    (reconcile env config w).world.log.filter Call.isCreateOrUpdate
        = w.log.filter Call.isCreateOrUpdate
          ++ [Call.CreateOrUpdate (secretObjectMetaForConfig config)] := by
  have hf := cloudConfig_log_filter env config w
  unfold reconcile
  rcases hr : cloudConfigFromOperatingSystemConfig env config w with ⟨o, w1⟩
  rw [hr] at hf
  simp only at hf
  cases o with
  | panic => exact Or.inl hf
  | err e =>
    left
    simp only
    split <;> rename_i hc <;> simp [callStatusUpdate] at hc <;>
      simp [← hc.2, callLoggerError, List.filter_append, Call.isCreateOrUpdate, hf]
  | ok cloudConfig =>
    right
    simp only
    rcases hu : callCreateOrUpdate env { ObjectMeta := secretObjectMetaForConfig config }
      (mutateSecret env config cloudConfig) w1 with ⟨⟨s, r⟩, w2⟩
    have hw2 : w2.log = w1.log ++ [Call.CreateOrUpdate (secretObjectMetaForConfig config)] := by
      simp [callCreateOrUpdate] at hu
      simp [← hu.2]
    cases r with
    | some e1 =>
      simp only
      split <;> rename_i hc <;> simp [callStatusUpdate] at hc <;>
        simp [← hc.2, callLoggerError, List.filter_append, Call.isCreateOrUpdate, hf, hw2]
    | none =>
      simp [callStatusUpdate, List.filter_append, Call.isCreateOrUpdate, hf, hw2]

theorem reconcile_status_reference (env : Collaborators σ)
    (hpres : ∀ (cfg : extensionsv1alpha1.OperatingSystemConfig) (d : Bytes)
      (obj : corev1.Secret) (st : σ) (s : corev1.Secret),
      (env.CreateOrUpdate obj (mutateSecret env cfg d) st).1 = (s, none) →
        s.Name = obj.Name ∧ s.Namespace = obj.Namespace)
    (config : extensionsv1alpha1.OperatingSystemConfig) (w : World σ) :
    ((reconcile env config w).config.Status.CloudConfig = config.Status.CloudConfig ∨
     (reconcile env config w).config.Status.CloudConfig
       = some { SecretRef := { Name := (secretObjectMetaForConfig config).Name,
                               Namespace := (secretObjectMetaForConfig config).Namespace } }) ∧
    ((reconcile env config w).err = .ok () →
     (reconcile env config w).config.Status.CloudConfig
       = some { SecretRef := { Name := (secretObjectMetaForConfig config).Name,
                               Namespace := (secretObjectMetaForConfig config).Namespace } }) := by
  unfold reconcile
  rcases hr : cloudConfigFromOperatingSystemConfig env config w with ⟨o, w1⟩
  cases o with
  | panic => simp
  | err e =>
    simp only
    split <;> simp [errorStatus]
  | ok cloudConfig =>
    simp only
    rcases hu : callCreateOrUpdate env { ObjectMeta := secretObjectMetaForConfig config }
      (mutateSecret env config cloudConfig) w1 with ⟨⟨s, r⟩, w2⟩
    cases r with
    | some e1 =>
      simp only
      split <;> simp [errorStatus]
    | none =>
      have hp := hpres config cloudConfig { ObjectMeta := secretObjectMetaForConfig config }
        w1.st s (by simp [callCreateOrUpdate] at hu; rw [← hu.1])
      simp only [corev1.Secret.Name, corev1.Secret.Namespace] at hp
      simp [corev1.Secret.Name, corev1.Secret.Namespace, hp.1, hp.2]

theorem secretObjectMetaForConfig_of_reference
    (config : extensionsv1alpha1.OperatingSystemConfig) (name ns : String)
    (h : config.Status.CloudConfig = some { SecretRef := { Name := name, Namespace := ns } }) :
    secretObjectMetaForConfig config = { Name := name, Namespace := ns } := by
  simp [secretObjectMetaForConfig, h]

theorem secretObjectMetaForConfig_eta (config : extensionsv1alpha1.OperatingSystemConfig) :
    ({ Name := (secretObjectMetaForConfig config).Name,
       Namespace := (secretObjectMetaForConfig config).Namespace } : metav1.ObjectMeta)
      = secretObjectMetaForConfig config := by
  unfold secretObjectMetaForConfig
  split <;> rfl

theorem memoryCluster_preserves_identity (cfg : extensionsv1alpha1.OperatingSystemConfig)
    (d : Bytes) (obj : corev1.Secret) (st : List corev1.Secret) (s : corev1.Secret)
    (h : (memoryCluster.CreateOrUpdate obj (mutateSecret memoryCluster cfg d) st).1 = (s, none)) :
    s.Name = obj.Name ∧ s.Namespace = obj.Namespace := by
  have hcur : ((lookupSecret { Namespace := obj.Namespace, Name := obj.Name } st).getD obj).Name
        = obj.Name ∧
      ((lookupSecret { Namespace := obj.Namespace, Name := obj.Name } st).getD obj).Namespace
        = obj.Namespace := by
    cases hl : lookupSecret { Namespace := obj.Namespace, Name := obj.Name } st with
    | none => simp
    | some cur =>
      have := List.find?_some hl
      simpa using this
  have hm : ∀ cur : corev1.Secret,
      (mutateSecret memoryCluster cfg d cur).1.Name = cur.Name ∧
      (mutateSecret memoryCluster cfg d cur).1.Namespace = cur.Namespace := by
    intro cur
    simp [mutateSecret, memoryCluster, corev1.Secret.Name, corev1.Secret.Namespace]
  have h3 := hm ((lookupSecret { Namespace := obj.Namespace, Name := obj.Name } st).getD obj)
  change (memoryCreateOrUpdate obj (mutateSecret memoryCluster cfg d) st).1 = (s, none) at h
  unfold memoryCreateOrUpdate at h
  rcases hmu : mutateSecret memoryCluster cfg d
    ((lookupSecret { Namespace := obj.Namespace, Name := obj.Name } st).getD obj) with ⟨s1, r1⟩
  rw [hmu] at h3
  simp only [hmu] at h
  cases r1 with
  | some e1 => simp at h
  | none =>
    simp only [Prod.mk.injEq, and_true] at h
    subst h
    exact ⟨h3.1.trans hcur.1, h3.2.trans hcur.2⟩

end coreos

/-! ## The operating system config actuator -/

namespace coreos

variable {σ : Type}

/-! ### Failure of the generation inside `reconcile` -/

/-- C1: when the generation of the cloud config fails with error `e` inside `reconcile`
(which is what both `Create` and `Update` run), no upsert of the artifact store is added to
the call log, the artifact reference of the status keeps its prior value, the observed
generation is the generation of the resource, the last operation is a reconcile record in the
error state with progress 50, the last error is populated, the only call after the failed
generation that reaches the cluster is the update of this status, and `reconcile` returns the
error `e`. -/
theorem reconcile_generation_failure (env : Collaborators σ)
    (config : extensionsv1alpha1.OperatingSystemConfig) (w : World σ) (e : Error)
    (h : (cloudConfigFromOperatingSystemConfig env config w).1 = .err e) :
    Create env config w = reconcile env config w ∧
    Update env config w = reconcile env config w ∧
    (reconcile env config w).world.log.filter Call.isCreateOrUpdate
      = w.log.filter Call.isCreateOrUpdate ∧
    (reconcile env config w).config.Status.CloudConfig = config.Status.CloudConfig ∧
    (reconcile env config w).config.Status.ObservedGeneration = config.Generation ∧
    (reconcile env config w).config.Status.LastOperation
      = some { OpType := .Reconcile, State := .Error,
               Description := "Could not generate cloud config: " ++ e.text, Progress := 50 } ∧
    (reconcile env config w).config.Status.LastError
      = some { Description := "Could not generate cloud config: " ++ e.text } ∧
    Call.StatusUpdate (reconcile env config w).config ∈ (reconcile env config w).world.log ∧
    (reconcile env config w).world.st
      = (env.StatusUpdate (reconcile env config w).config
          (cloudConfigFromOperatingSystemConfig env config w).2.st).2 ∧
    (reconcile env config w).err = .err e := by
  have hf := cloudConfig_log_filter env config w
  refine ⟨rfl, rfl, ?_⟩
  unfold reconcile
  rcases hr : cloudConfigFromOperatingSystemConfig env config w with ⟨o, w1⟩
  rw [hr] at h hf
  simp only at h
  subst h
  simp only
  split <;> rename_i hc <;> simp [callStatusUpdate] at hc <;>
    simp [← hc.2, callLoggerError, List.filter_append, Call.isCreateOrUpdate, errorStatus,
      controller.ReconcileError, hf]

/-- Witness of C1: the second file of `brokenConfig` refers to a secret that the cluster
does not have, and every status update fails. -/
theorem reconcile_generation_failure_witness :
    (cloudConfigFromOperatingSystemConfig statusFailingCluster brokenConfig bootstrapWorld).1
      = .err (.notFound "shoot" "nowhere") ∧
    (reconcile statusFailingCluster brokenConfig bootstrapWorld).world.log.filter
      Call.isCreateOrUpdate = [] ∧
    (reconcile statusFailingCluster brokenConfig bootstrapWorld).config.Status.CloudConfig
      = some { SecretRef := { Name := "osc-result-old", Namespace := "shoot" } } ∧
    (reconcile statusFailingCluster brokenConfig bootstrapWorld).config.Status.ObservedGeneration
      = 7 ∧
    (reconcile statusFailingCluster brokenConfig bootstrapWorld).err
      = .err (.notFound "shoot" "nowhere") :=
  have h := reconcile_generation_failure statusFailingCluster brokenConfig bootstrapWorld
    (.notFound "shoot" "nowhere") (by decide)
  ⟨by decide, h.2.2.1, h.2.2.2.1, h.2.2.2.2.1, h.2.2.2.2.2.2.2.2.2⟩

/-! ### The error returned by `reconcile` -/

/-- C2: when the generation fails with error `e`, or the generation succeeds and the upsert
of the artifact fails with error `e`, `reconcile` returns exactly `e`, whatever the status
update does: the statement holds with any function in the place of the status update of the
client, one that fails included. -/
theorem reconcile_returns_primary_error (env : Collaborators σ)
    (config : extensionsv1alpha1.OperatingSystemConfig) (w : World σ) (e : Error)
    (h : (cloudConfigFromOperatingSystemConfig env config w).1 = .err e ∨
      ∃ cloudConfig, (cloudConfigFromOperatingSystemConfig env config w).1 = .ok cloudConfig ∧
        (callCreateOrUpdate env { ObjectMeta := secretObjectMetaForConfig config }
          (mutateSecret env config cloudConfig)
          (cloudConfigFromOperatingSystemConfig env config w).2).1.2 = some e)
    (statusUpdate : extensionsv1alpha1.OperatingSystemConfig → σ → Option Error × σ) :
    (reconcile { env with StatusUpdate := statusUpdate } config w).err = .err e := by
  unfold reconcile
  rw [cloudConfig_statusUpdate_irrelevant]
  rcases hr : cloudConfigFromOperatingSystemConfig env config w with ⟨o, w1⟩
  rw [hr] at h
  rcases h with h | ⟨cloudConfig, h1, h2⟩
  · simp only at h
    subst h
    simp only
    split <;> rfl
  · simp only at h1 h2
    subst h1
    simp only
    have hu2 : callCreateOrUpdate { env with StatusUpdate := statusUpdate }
        { ObjectMeta := secretObjectMetaForConfig config }
        (mutateSecret { env with StatusUpdate := statusUpdate } config cloudConfig) w1
        = callCreateOrUpdate env { ObjectMeta := secretObjectMetaForConfig config }
          (mutateSecret env config cloudConfig) w1 := rfl
    rw [hu2]
    rcases hu : callCreateOrUpdate env { ObjectMeta := secretObjectMetaForConfig config }
      (mutateSecret env config cloudConfig) w1 with ⟨⟨s, r⟩, w2⟩
    rw [hu] at h2
    simp only at h2
    subst h2
    simp only
    split <;> rfl

/-- Witness of C2: the double fault (the generation fails with a not-found error and the
status update fails with a conflict), and a failed upsert followed by a failed status
update. -/
theorem reconcile_returns_primary_error_witness :
    (reconcile { memoryCluster with StatusUpdate := fun _ st => (some (.other "conflict"), st) }
        brokenConfig bootstrapWorld).err = .err (.notFound "shoot" "nowhere") ∧
    (reconcile { upsertFailingCluster with
        StatusUpdate := fun _ st => (some (.other "conflict"), st) }
        workerConfig bootstrapWorld).err = .err (.other "forbidden") :=
  ⟨reconcile_returns_primary_error memoryCluster brokenConfig bootstrapWorld
      (.notFound "shoot" "nowhere") (Or.inl (by decide))
      (fun _ st => (some (.other "conflict"), st)),
   reconcile_returns_primary_error upsertFailingCluster workerConfig bootstrapWorld
      (.other "forbidden")
      (Or.inr ⟨some [104, 101, 108, 108, 111, 97, 98, 99], by decide, by decide⟩)
      (fun _ st => (some (.other "conflict"), st))⟩

/-! ### The content resolver on secret references -/

/-- Counterexample to C3: the secret "bootstrap" is in the cluster and has no key "absent",
and the resolver returns the nil slice without an error. -/
theorem dataForFileContent_missing_key_counterexample :
    (∃ secret, (memoryCluster.Get { Namespace := "shoot", Name := "bootstrap" }
        bootstrapWorld.st).1 = .ok secret ∧ secret.Data.entry "absent" = none) ∧
    (dataForFileContent memoryCluster "shoot" missingKeyContent bootstrapWorld).1 = .ok none ∧
    ¬ ∃ e, (dataForFileContent memoryCluster "shoot" missingKeyContent bootstrapWorld).1
        = .err e := by
  refine ⟨⟨bootstrapSecret, rfl, by decide⟩, by decide, ?_⟩
  rintro ⟨e, he⟩
  have h : (dataForFileContent memoryCluster "shoot" missingKeyContent bootstrapWorld).1
      = .ok none := by decide
  rw [h] at he
  cases he

/-- C3, amended: for a file content without inline data that refers to a secret, the
resolver makes one `Get` of the secret of that name in the resolve namespace; when this
`Get` fails (for an absent secret, with the not-found error of the client) the resolver
fails with exactly that error; when it succeeds the resolver returns, without error, the
bytes stored under the data key, which is the nil slice when the secret lacks the key. -/
theorem dataForFileContent_secretRef (env : Collaborators σ) (ns : String)
    (content : extensionsv1alpha1.FileContent)
    (secretRef : extensionsv1alpha1.FileContentSecretRef) (w : World σ)
    (hInline : content.Inline = none) (hRef : content.SecretRef = some secretRef) :
    (dataForFileContent env ns content w).2.log
      = w.log ++ [Call.Get { Namespace := ns, Name := secretRef.Name }] ∧
    (∀ e, (env.Get { Namespace := ns, Name := secretRef.Name } w.st).1 = .error e →
      (dataForFileContent env ns content w).1 = .err e) ∧
    (∀ secret, (env.Get { Namespace := ns, Name := secretRef.Name } w.st).1 = .ok secret →
      (dataForFileContent env ns content w).1 = .ok (secret.Data.index secretRef.DataKey) ∧
      (secret.Data.entry secretRef.DataKey = none →
        (dataForFileContent env ns content w).1 = .ok none)) := by
  unfold dataForFileContent
  simp only [hInline, hRef, callGet]
  rcases hg : env.Get { Namespace := ns, Name := secretRef.Name } w.st with ⟨r, st1⟩
  cases r with
  | error e => simp
  | ok secret =>
    simp only [Except.ok.injEq, forall_eq', true_and, reduceCtorEq, false_implies,
      implies_true, Outcome.ok.injEq]
    intro h
    cases hd : secret.Data with
    | none => rfl
    | some f =>
      rw [hd] at h
      simp only [DataMap.entry] at h
      simp [DataMap.index, h]

/-- Witness of C3, amended: an absent secret makes the resolver fail with the not-found
error of the client, and an absent key does not. -/
theorem dataForFileContent_secretRef_witness :
    (dataForFileContent memoryCluster "shoot" missingSecretContent bootstrapWorld).1
      = .err (.notFound "shoot" "nowhere") ∧
    (dataForFileContent memoryCluster "shoot" missingKeyContent bootstrapWorld).1
      = .ok none :=
  ⟨(dataForFileContent_secretRef memoryCluster "shoot" missingSecretContent
      { Name := "nowhere", DataKey := "token" } bootstrapWorld rfl rfl).2.1
      (.notFound "shoot" "nowhere") rfl,
   ((dataForFileContent_secretRef memoryCluster "shoot" missingKeyContent
      { Name := "bootstrap", DataKey := "absent" } bootstrapWorld rfl rfl).2.2
      bootstrapSecret rfl).2 (by decide)⟩

/-! ### The identity of the artifact -/

/-- C4: when the status of the resource refers to an artifact, `secretObjectMetaForConfig`
yields the name and the namespace of that reference, whatever the name and the namespace of
the resource are; otherwise it yields the name of the resource after the fixed text
"osc-result-", and the namespace of the resource. -/
theorem secretObjectMetaForConfig_identity
    (config : extensionsv1alpha1.OperatingSystemConfig) :
    match config.Status.CloudConfig with
    | some cloudConfig =>
      ∀ name ns : String,
        (secretObjectMetaForConfig { config with Name := name, Namespace := ns }).Name
          = cloudConfig.SecretRef.Name ∧
        (secretObjectMetaForConfig { config with Name := name, Namespace := ns }).Namespace
          = cloudConfig.SecretRef.Namespace
    | none =>
      (secretObjectMetaForConfig config).Name = "osc-result-" ++ config.Name ∧
      (secretObjectMetaForConfig config).Namespace = config.Namespace := by
  split <;> rename_i hc
  · intro name ns
    simp [secretObjectMetaForConfig, hc]
  · simp [secretObjectMetaForConfig, hc]

/-! ### Stability of the artifact identity -/

/-- C5: assume that an upsert which succeeds leaves the name and the namespace of the
object it was given, and let `reconcile` succeed on a resource. Then the artifact reference
written to the status is the identity that `reconcile` targeted. Moreover, for every
resource that carries this artifact reference in its status, whatever its name, namespace and
spec, and from every world: the identity targeted is the same one; a second `reconcile`
makes at most one upsert and it is on that identity; the artifact reference of the status
after the second `reconcile` is again the same, whatever its outcome; and when the spec is
unchanged and the files resolve to the same contents, both runs generate the same document,
which is the value that the mutation stores under the cloud-config key. -/
theorem reconcile_stable_artifact_name (env : Collaborators σ)
    (config : extensionsv1alpha1.OperatingSystemConfig) (w : World σ)
    (hpres : ∀ (cfg : extensionsv1alpha1.OperatingSystemConfig) (d : Bytes)
      (obj : corev1.Secret) (st : σ) (s : corev1.Secret),
      (env.CreateOrUpdate obj (mutateSecret env cfg d) st).1 = (s, none) →
        s.Name = obj.Name ∧ s.Namespace = obj.Namespace)
    (hok : (reconcile env config w).err = .ok ()) :
    (reconcile env config w).config.Status.CloudConfig
      = some { SecretRef := { Name := (secretObjectMetaForConfig config).Name,
                              Namespace := (secretObjectMetaForConfig config).Namespace } } ∧
    ∀ (config2 : extensionsv1alpha1.OperatingSystemConfig) (w2 : World σ),
      config2.Status.CloudConfig = (reconcile env config w).config.Status.CloudConfig →
      secretObjectMetaForConfig config2 = secretObjectMetaForConfig config ∧
      ((reconcile env config2 w2).world.log.filter Call.isCreateOrUpdate
          = w2.log.filter Call.isCreateOrUpdate ∨
       (reconcile env config2 w2).world.log.filter Call.isCreateOrUpdate
          = w2.log.filter Call.isCreateOrUpdate
            ++ [Call.CreateOrUpdate (secretObjectMetaForConfig config)]) ∧
      (reconcile env config2 w2).config.Status.CloudConfig
        = (reconcile env config w).config.Status.CloudConfig ∧
      (config2.Spec = config.Spec →
        (resolveFiles env config2.Namespace config2.Spec.Files [] w2).1
          = (resolveFiles env config.Namespace config.Spec.Files [] w).1 →
        ∃ d, (cloudConfigFromOperatingSystemConfig env config w).1 = .ok d ∧
          (cloudConfigFromOperatingSystemConfig env config2 w2).1 = .ok d ∧
          ∀ secret : corev1.Secret,
            (mutateSecret env config d secret).1.Data.entry
              extensionsv1alpha1.OperatingSystemConfigSecretDataKey = some d ∧
            (mutateSecret env config2 d secret).1.Data.entry
              extensionsv1alpha1.OperatingSystemConfigSecretDataKey = some d) := by
  have href := (reconcile_status_reference env hpres config w).2 hok
  refine ⟨href, ?_⟩
  intro config2 w2 h2
  rw [href] at h2
  have hmeta : secretObjectMetaForConfig config2 = secretObjectMetaForConfig config := by
    rw [secretObjectMetaForConfig_of_reference config2 _ _ h2, secretObjectMetaForConfig_eta]
  refine ⟨hmeta, ?_, ?_, ?_⟩
  · rw [← hmeta]
    exact reconcile_upsert_calls env config2 w2
  · rw [href]
    rcases (reconcile_status_reference env hpres config2 w2).1 with h | h
    · rw [h, h2]
    · rw [h, hmeta]
  · intro hspec hres
    have hgen : ∃ d, (cloudConfigFromOperatingSystemConfig env config w).1 = .ok d := by
      revert hok
      unfold reconcile
      rcases hr : cloudConfigFromOperatingSystemConfig env config w with ⟨o, w1⟩
      cases o with
      | panic => simp
      | err e =>
        simp only
        split <;> simp
      | ok d => exact fun _ => ⟨d, rfl⟩
    obtain ⟨d, hd⟩ := hgen
    refine ⟨d, hd, ?_, ?_⟩
    · revert hd
      unfold cloudConfigFromOperatingSystemConfig
      rw [hspec]
      rcases hr2 : resolveFiles env config2.Namespace config.Spec.Files [] w2 with ⟨o2, v2⟩
      rcases hr1 : resolveFiles env config.Namespace config.Spec.Files [] w with ⟨o1, v1⟩
      rw [hspec, hr2, hr1] at hres
      simp only at hres
      subst hres
      cases o2 with
      | panic => simp
      | err e => simp
      | ok files =>
        simp only [callGenerate]
        cases hg : env.Generate env.DefaultUnitsPath
          { Files := files, Units := convertUnits config.Spec.Units [] } <;> simp
    · intro secret
      have key : ∀ cfg : extensionsv1alpha1.OperatingSystemConfig,
          (mutateSecret env cfg d secret).1.Data.entry
            extensionsv1alpha1.OperatingSystemConfigSecretDataKey = some d := by
        intro cfg
        unfold mutateSecret
        simp only
        split <;> simp [DataMap.entry, DataMap.set]
      exact ⟨key config, key config2⟩

/-- Witness of C5: `reconcile` succeeds on `workerConfig`, whose status has no artifact
reference yet, and records the derived identity; the resulting resource, renamed, still
targets that identity. -/
theorem reconcile_stable_artifact_name_witness :
    (reconcile memoryCluster workerConfig bootstrapWorld).err = .ok () ∧
    (reconcile memoryCluster workerConfig bootstrapWorld).config.Status.CloudConfig
      = some { SecretRef := { Name := (secretObjectMetaForConfig workerConfig).Name,
                              Namespace := (secretObjectMetaForConfig workerConfig).Namespace } } ∧
    secretObjectMetaForConfig
        { (reconcile memoryCluster workerConfig bootstrapWorld).config with Name := "renamed" }
      = secretObjectMetaForConfig workerConfig :=
  have h := reconcile_stable_artifact_name memoryCluster workerConfig bootstrapWorld
    memoryCluster_preserves_identity (by decide)
  ⟨by decide, h.1,
   (h.2 { (reconcile memoryCluster workerConfig bootstrapWorld).config with Name := "renamed" }
      (reconcile memoryCluster workerConfig bootstrapWorld).world rfl).1⟩

/-! ### The mutation of the artifact -/

/-- C6: the mutation that `reconcile` hands to the upsert stores the generated document
under the cloud-config key of the secret and leaves every other key as it was, present with
its value or absent; applied to a secret without a data map it yields a map with exactly
that one key. The name and the namespace of the secret are not changed either. -/
theorem mutateSecret_touches_only_its_key (env : Collaborators σ)
    (config : extensionsv1alpha1.OperatingSystemConfig) (cloudConfig : Bytes)
    (secret : corev1.Secret) :
    (∀ k : String,
      (mutateSecret env config cloudConfig secret).1.Data.entry k
        = if k = extensionsv1alpha1.OperatingSystemConfigSecretDataKey then some cloudConfig
          else secret.Data.entry k) ∧
    (∀ k : String,
      (mutateSecret env config cloudConfig { secret with Data := none }).1.Data.entry k
        = if k = extensionsv1alpha1.OperatingSystemConfigSecretDataKey then some cloudConfig
          else none) ∧
    (mutateSecret env config cloudConfig secret).1.Data.index
        extensionsv1alpha1.OperatingSystemConfigSecretDataKey = cloudConfig ∧
    (mutateSecret env config cloudConfig secret).1.Name = secret.Name ∧
    (mutateSecret env config cloudConfig secret).1.Namespace = secret.Namespace := by
  have key : ∀ (s : corev1.Secret) (k : String),
      (mutateSecret env config cloudConfig s).1.Data.entry k
        = if k = extensionsv1alpha1.OperatingSystemConfigSecretDataKey then some cloudConfig
          else s.Data.entry k := by
    intro s k
    unfold mutateSecret
    simp only
    split <;> cases hd : s.Data <;> simp [DataMap.entry, DataMap.set]
  refine ⟨key secret, ?_, ?_, ?_, ?_⟩
  · intro k
    rw [key]
    simp [DataMap.entry]
  · unfold mutateSecret
    simp only
    split <;> simp [DataMap.index, DataMap.set]
  · unfold mutateSecret
    simp only
    split <;> simp [corev1.Secret.Name]
  · unfold mutateSecret
    simp only
    split <;> simp [corev1.Secret.Namespace]

/-! ### Deletion -/

/-- C7: `delete` (which is what `Delete` runs) sets the observed generation to the
generation of the resource and the last operation to a delete record in the succeeded state,
leaves the artifact reference of the status as it was, makes exactly one call to the cluster,
the update of this status (followed by a call to the logger when that update fails), and
returns nil when the status update succeeds and the error of the status update otherwise. -/
theorem delete_only_updates_status (env : Collaborators σ)
    (config : extensionsv1alpha1.OperatingSystemConfig) (w : World σ) :
    Delete env config w = delete env config w ∧
    (delete env config w).config.Status.ObservedGeneration = config.Generation ∧
    (delete env config w).config.Status.LastOperation
      = some { OpType := .Delete, State := .Succeeded,
               Description := "Successfully deleted cloud config", Progress := 100 } ∧
    (delete env config w).config.Status.CloudConfig = config.Status.CloudConfig ∧
    (delete env config w).world.st = (env.StatusUpdate (delete env config w).config w.st).2 ∧
    (delete env config w).world.log
      = w.log ++ Call.StatusUpdate (delete env config w).config ::
          (match (env.StatusUpdate (delete env config w).config w.st).1 with
           | some err =>
             [Call.LoggerError err
               "Could not update operating system config status for deletion" config.Name]
           | none => []) ∧
    (delete env config w).err
      = Outcome.ofError (env.StatusUpdate (delete env config w).config w.st).1 ∧
    ((delete env config w).err = .ok () ↔
      (env.StatusUpdate (delete env config w).config w.st).1 = none) := by
  refine ⟨rfl, ?_⟩
  unfold delete
  simp only [callStatusUpdate, callLoggerError, controller.ReconcileSucceeded]
  split <;> rename_i hc <;> simp at hc <;> simp [hc.1, ← hc.2, Outcome.ofError]

/-! ### Order of the assembled model -/

/-- C8: when the loop over the files of the spec resolves every file, the model handed to
the generator has one file per file of the spec and one unit per unit of the spec, in the
order of the spec: its file number `i` has the path and the permissions of file `i` of the
spec and the bytes that the resolver returned for that file, in the world left by the files
before it; its unit number `j` has the name of unit `j` of the spec, the bytes of its content
(nil when the unit has none), and one drop-in per drop-in of that unit, in order, with the
same name and the bytes of the same content. -/
theorem assembly_preserves_order (env : Collaborators σ)
    (config : extensionsv1alpha1.OperatingSystemConfig) (w : World σ)
    (files : List internal.File) (w1 : World σ)
    (h : resolveFiles env config.Namespace config.Spec.Files [] w = (.ok files, w1)) :
    (cloudConfigFromOperatingSystemConfig env config w).2.log
      = w1.log ++ [Call.Generate env.DefaultUnitsPath
          { Files := files, Units := convertUnits config.Spec.Units [] }] ∧
    files.length = config.Spec.Files.length ∧
    (convertUnits config.Spec.Units []).length = config.Spec.Units.length ∧
    (∀ (i : Nat) (file : extensionsv1alpha1.File), config.Spec.Files[i]? = some file →
      ∃ data,
        (dataForFileContent env config.Namespace file.Content
          (resolveFiles env config.Namespace (config.Spec.Files.take i) [] w).2).1 = .ok data ∧
        files[i]? = some { Path := file.Path, Content := data, Permissions := file.Permissions }) ∧
    (∀ (j : Nat) (unit : extensionsv1alpha1.Unit), config.Spec.Units[j]? = some unit →
      (convertUnits config.Spec.Units [])[j]?
        = some { Name := unit.Name
                 Content := (match unit.Content with
                   | some s => bytesOf s
                   | none => none)
                 DropIns := unit.DropIns.map
                   (fun d => { Name := d.Name, Content := bytesOf d.Content }) }) := by
  obtain ⟨hlen, hidx⟩ := resolveFiles_index env config.Namespace config.Spec.Files w files w1 h
  refine ⟨?_, hlen, ?_, hidx, ?_⟩
  · unfold cloudConfigFromOperatingSystemConfig
    rw [h]
    simp only [callGenerate]
    split <;> rename_i hc <;> simp at hc <;> simp [← hc.2]
  · simp [convertUnits_eq]
  · intro j unit hj
    simp [convertUnits_eq, hj]

/-- Witness of C8: the two files of `workerConfig` have the same path and its two units the
same name. -/
theorem assembly_preserves_order_witness :
    (cloudConfigFromOperatingSystemConfig memoryCluster workerConfig bootstrapWorld).2.log
      = [Call.Get { Namespace := "shoot", Name := "bootstrap" }]
        ++ [Call.Generate "/etc/systemd/system"
          { Files := [{ Path := "/etc/x", Content := bytesOf "hello", Permissions := some 420 },
                      { Path := "/etc/x", Content := bytesOf "abc", Permissions := some 384 }]
            Units := convertUnits workerConfig.Spec.Units [] }] ∧
    (convertUnits workerConfig.Spec.Units []).length = 2 :=
  have h := assembly_preserves_order memoryCluster workerConfig bootstrapWorld
    [{ Path := "/etc/x", Content := bytesOf "hello", Permissions := some 420 },
     { Path := "/etc/x", Content := bytesOf "abc", Permissions := some 384 }]
    { st := [bootstrapSecret], log := [Call.Get { Namespace := "shoot", Name := "bootstrap" }] }
    rfl
  ⟨h.1, h.2.2.1⟩

/-! ### Failure of the assembly -/

/-- Counterexample to C9: the first file of `brokenConfig` that fails to resolve is its
second one, with the not-found error of the client, and the assembly returns this very
error, not an error that wraps it. -/
theorem assembly_error_not_wrapped_counterexample :
    (dataForFileContent memoryCluster "shoot" missingSecretContent bootstrapWorld).1
      = .err (.notFound "shoot" "nowhere") ∧
    (cloudConfigFromOperatingSystemConfig memoryCluster brokenConfig bootstrapWorld).1
      = .err (.notFound "shoot" "nowhere") ∧
    ¬ ∃ context,
      (cloudConfigFromOperatingSystemConfig memoryCluster brokenConfig bootstrapWorld).1
        = .err (.wrap context (.notFound "shoot" "nowhere")) := by
  refine ⟨by decide, by decide, ?_⟩
  rintro ⟨context, hc⟩
  have h : (cloudConfigFromOperatingSystemConfig memoryCluster brokenConfig bootstrapWorld).1
      = .err (.notFound "shoot" "nowhere") := by decide
  rw [h] at hc
  cases hc

/-- C9, amended: when the files before file `file` of the spec resolve and the resolver
fails on `file` with error `e`, the assembly returns exactly `e`, and it returns in the world
that the failed resolution left: no file after `file` is resolved, whatever the files after
it are, and the generator is not called. -/
theorem assembly_fails_fast (env : Collaborators σ)
    (config : extensionsv1alpha1.OperatingSystemConfig) (w : World σ)
    (pre post : List extensionsv1alpha1.File) (file : extensionsv1alpha1.File)
    (out : List internal.File) (w1 w2 : World σ) (e : Error)
    (hFiles : config.Spec.Files = pre ++ file :: post)
    (hPre : resolveFiles env config.Namespace pre [] w = (.ok out, w1))
    (hFile : dataForFileContent env config.Namespace file.Content w1 = (.err e, w2)) :
    cloudConfigFromOperatingSystemConfig env config w = (.err e, w2) ∧
    w2.log.filter Call.isGenerate = w.log.filter Call.isGenerate ∧
    w2.log.filter Call.isCreateOrUpdate = w.log.filter Call.isCreateOrUpdate := by
  have hr : resolveFiles env config.Namespace config.Spec.Files [] w = (.err e, w2) := by
    rw [hFiles, resolveFiles_append, hPre]
    simp only [resolveFiles, hFile]
  have hg := resolveFiles_log_filter env config.Namespace config.Spec.Files [] w
    Call.isGenerate (fun _ => rfl) (fun _ _ => rfl)
  have hu := resolveFiles_log_filter env config.Namespace config.Spec.Files [] w
    Call.isCreateOrUpdate (fun _ => rfl) (fun _ _ => rfl)
  rw [hr] at hg hu
  refine ⟨?_, hg, hu⟩
  unfold cloudConfigFromOperatingSystemConfig
  rw [hr]

/-- Witness of C9, amended: the second of the three files of `brokenConfig` fails. -/
theorem assembly_fails_fast_witness :
    cloudConfigFromOperatingSystemConfig memoryCluster brokenConfig bootstrapWorld
      = (.err (.notFound "shoot" "nowhere"),
         { st := [bootstrapSecret],
           log := [Call.Get { Namespace := "shoot", Name := "nowhere" }] }) :=
  (assembly_fails_fast memoryCluster brokenConfig bootstrapWorld
    [{ Path := "/etc/a", Content := { Inline := some { Encoding := "", Data := "a" } } }]
    [{ Path := "/etc/c", Content := missingKeyContent }]
    { Path := "/etc/b", Content := missingSecretContent }
    [{ Path := "/etc/a", Content := bytesOf "a", Permissions := none }]
    bootstrapWorld
    { st := [bootstrapSecret], log := [Call.Get { Namespace := "shoot", Name := "nowhere" }] }
    (.notFound "shoot" "nowhere") rfl rfl rfl).1

end coreos

/-! ## The infrastructure actuator -/

namespace infrastructure

variable {σ T C P S : Type}

/-- C10: when the status computation of the provisioning engine fails with error `e`,
`updateProviderStatus` returns `e`, leaves the resource as it was and makes no call after the
status computation, so no update of the resource; when the computation yields the status
`s`, the provider status of the resource becomes a raw extension with object `s`, nothing
else of the resource changes, the resource is updated once and the result of this update is
returned. -/
theorem updateProviderStatus_writes_only_computed_status (env : Collaborators σ T C P S)
    (tf : T) (infra : Infrastructure P S) (config : C) (w : World σ T C P S) :
    (∀ e, (env.ComputeStatus tf config w.st).1 = .error e →
      (updateProviderStatus env tf infra config w).err = some e ∧
      (updateProviderStatus env tf infra config w).infra = infra ∧
      (updateProviderStatus env tf infra config w).world.log
        = w.log ++ [Call.ComputeStatus tf config] ∧
      (updateProviderStatus env tf infra config w).world.st
        = (env.ComputeStatus tf config w.st).2) ∧
    (∀ s, (env.ComputeStatus tf config w.st).1 = .ok s →
      (updateProviderStatus env tf infra config w).infra
        = { infra with
            Status := { infra.Status with ProviderStatus := some { Object := some s } } } ∧
      (updateProviderStatus env tf infra config w).err
        = (env.Update (updateProviderStatus env tf infra config w).infra
            (env.ComputeStatus tf config w.st).2).1 ∧
      (updateProviderStatus env tf infra config w).world.log
        = w.log ++ [Call.ComputeStatus tf config,
            Call.Update (updateProviderStatus env tf infra config w).infra] ∧
      (updateProviderStatus env tf infra config w).world.st
        = (env.Update (updateProviderStatus env tf infra config w).infra
            (env.ComputeStatus tf config w.st).2).2) := by
  unfold updateProviderStatus
  simp only [callComputeStatus, callUpdate]
  rcases hc : env.ComputeStatus tf config w.st with ⟨r, st1⟩
  cases r with
  | error e => simp
  | ok s => simp

/-- Witness of C10: a failing status computation, and a computed status whose update is
rejected. -/
theorem updateProviderStatus_writes_only_computed_status_witness :
    ((updateProviderStatus rejectingCluster "tf" vpcInfra "invalid"
        { st := (), log := [] }).err = some (.other "no state") ∧
     (updateProviderStatus rejectingCluster "tf" vpcInfra "invalid"
        { st := (), log := [] }).infra = vpcInfra ∧
     (updateProviderStatus rejectingCluster "tf" vpcInfra "invalid"
        { st := (), log := [] }).world.log = [Call.ComputeStatus "tf" "invalid"]) ∧
    ((updateProviderStatus rejectingCluster "tf" vpcInfra "zone-a"
        { st := (), log := [] }).infra.Status.ProviderStatus
        = some { Object := some "tf/zone-a" } ∧
     (updateProviderStatus rejectingCluster "tf" vpcInfra "zone-a"
        { st := (), log := [] }).err = some (.other "conflict")) :=
  have h1 := (updateProviderStatus_writes_only_computed_status rejectingCluster "tf" vpcInfra
    "invalid" { st := (), log := [] }).1 (.other "no state") rfl
  have h2 := (updateProviderStatus_writes_only_computed_status rejectingCluster "tf" vpcInfra
    "zone-a" { st := (), log := [] }).2 "tf/zone-a" rfl
  ⟨⟨h1.1, h1.2.1, h1.2.2.1⟩, ⟨by rw [h2.1], h2.2.1⟩⟩

end infrastructure
